import Mathlib

/-!
Shallow embedding of the multi-backend failover layer of the InstaIntelli
backend.

The repository contains three managers with line-for-line parallel logic:
`PostgreSQLFailover` (backend/app/db/postgres/failover.py),
`MongoFailover` (backend/app/db/mongodb/failover.py) and
`RedisFailover` (backend/app/db/redis/failover.py).  Each holds an optional
primary engine/client, an optional fallback engine/client, a `current`
pointer, a `last_health_check` timestamp, a fixed `health_check_interval`
of 30 seconds and a `primary_healthy` flag.  Python compares engine/client
objects with `==`, which for these driver objects is object identity; in
particular, when both the `current` pointer and the engine it is compared
with are `None`, the comparison is `None == None` and evaluates to `True`.
We model the pool objects by their role tag inside `Option`, which
reproduces exactly this equality behaviour (`none = none` is true, values
of distinct roles are never equal).

Time (`time.time()`) is modelled by `ℚ`.  The result of a network probe of
the primary backend is an environment input, modelled as the boolean
parameter `primaryUp`; `_health_check` applied to an absent (`None`)
engine raises inside its `try` block and therefore returns `False`, which
the model reproduces.
-/

namespace Insta

/-- Role tag identifying one of the two pool objects of a manager. -/
inductive Pool
  | primary
  | fallback
deriving DecidableEq, Repr

/-- State of one failover manager (`PostgreSQLFailover`, `MongoFailover`,
`RedisFailover` are structurally identical).  `primaryConf` /
`fallbackConf` record whether the corresponding URL was configured, i.e.
whether `self.primary_engine` / `self.fallback_engine` is an object or
`None`; `current` is `self.current_engine` (`none` = Python `None`). -/
structure Manager where
  primaryConf : Bool
  fallbackConf : Bool
  current : Option Pool
  lastHealthCheck : ℚ
  healthCheckInterval : ℚ
  primaryHealthy : Bool
deriving DecidableEq, Repr

/-- `self.primary_engine`: an object exactly when the primary URL was
configured, otherwise Python `None`. -/
def Manager.primaryEngine (m : Manager) : Option Pool :=
  if m.primaryConf then some Pool.primary else none

/-- `self.fallback_engine`: an object exactly when the fallback URL was
configured, otherwise Python `None`. -/
def Manager.fallbackEngine (m : Manager) : Option Pool :=
  if m.fallbackConf then some Pool.fallback else none

/-- `__init__` + `_initialize_engines` / `_initialize_clients`: fields are
set to `0` / `30` / `True`, the engines are created from the configured
URLs, and `self.current_engine = self.primary_engine or self.fallback_engine`
(Python `or`: first non-`None` operand, else `None`). -/
def initManager (primaryConf fallbackConf : Bool) : Manager :=
  { primaryConf := primaryConf
    fallbackConf := fallbackConf
    current :=
      (if primaryConf then some Pool.primary else none).orElse
        (fun _ => if fallbackConf then some Pool.fallback else none)
    lastHealthCheck := 0
    healthCheckInterval := 30
    primaryHealthy := true }

/-- `_health_check(engine)`: a real probe of an existing engine answers
with the environment's health bit `primaryUp`; probing `None` raises
(`AttributeError`) inside the `try` block, which the handler turns into
`False`. -/
def healthCheck (engine : Option Pool) (primaryUp : Bool) : Bool :=
  match engine with
  | none => false
  | some _ => primaryUp

/-- Second half of `_check_and_switch` (the "if using primary, check
health" block): when `self.current_engine == self.primary_engine` and the
probe is not healthy, switch to the fallback engine and clear
`primary_healthy` — but only when `self.fallback_engine` exists; in every
other case the state is left as is.  (The source writes
`if not self._health_check(...)`; here the healthy case is the `then`
branch of the same test.) -/
def checkPrimaryBranch (m : Manager) (primaryUp : Bool) : Manager :=
  if m.current = m.primaryEngine then
    if healthCheck m.primaryEngine primaryUp then m
    else if m.fallbackEngine.isSome then
      { m with current := m.fallbackEngine, primaryHealthy := false }
    else m
  else m

/-- Body of `_check_and_switch` after the timestamp update: the first
branch (`if self.current_engine == self.fallback_engine and self.primary_engine:`)
probes the primary and on success switches back, setting
`primary_healthy = True` and returning; on probe failure, and when the
first branch does not apply, control continues with the "using primary"
branch. -/
def checkAndSwitchBody (m1 : Manager) (primaryUp : Bool) : Manager :=
  if m1.current = m1.fallbackEngine ∧ m1.primaryEngine.isSome then
    if healthCheck m1.primaryEngine primaryUp then
      { m1 with current := m1.primaryEngine, primaryHealthy := true }
    else checkPrimaryBranch m1 primaryUp
  else checkPrimaryBranch m1 primaryUp

/-- `_check_and_switch`: return unchanged while the throttle window is
open (`current_time - self.last_health_check < self.health_check_interval`);
otherwise stamp `self.last_health_check = current_time` and run the two
switch branches. -/
def checkAndSwitch (m : Manager) (now : ℚ) (primaryUp : Bool) : Manager :=
  if now - m.lastHealthCheck < m.healthCheckInterval then m
  else checkAndSwitchBody { m with lastHealthCheck := now } primaryUp

/-- The errors the accessors raise: `backendUnavailable` is the
`RuntimeError("No ... available")` (the spec's `BackendUnavailable`);
`notImplementedError` is the `NotImplementedError` that pymongo's
`Database.__bool__` raises when a real `Database` object is used in a
truth-value test. -/
inductive DBError
  | backendUnavailable
  | notImplementedError
deriving DecidableEq, Repr

/-- `PostgreSQLFailover.get_session` (the same logic as
`RedisFailover.get_client`): under the lock, run `_check_and_switch`,
then raise if `self.current_engine` is `None` (`not` on an engine/client
object is an ordinary truthiness test that these driver objects answer),
else hand out a session bound to the current pool.  The returned
`Manager` is the state after the call. -/
def get_session (m : Manager) (now : ℚ) (primaryUp : Bool) :
    Manager × Except DBError Pool :=
  let m1 := checkAndSwitch m now primaryUp
  match m1.current with
  | none => (m1, Except.error DBError.backendUnavailable)
  | some p => (m1, Except.ok p)

/-- `PostgreSQLFailover.get_engine` (same logic as
`MongoFailover.get_client`): under the lock, run `_check_and_switch`, then
`return self.current_engine` unconditionally — the body contains no raise
statement, so the outcome is always `Except.ok` and carries `none` when no
engine exists. -/
def get_engine (m : Manager) (now : ℚ) (primaryUp : Bool) :
    Manager × Except DBError (Option Pool) :=
  let m1 := checkAndSwitch m now primaryUp
  (m1, Except.ok m1.current)

/-- `MongoFailover.get_database`: under the lock, run `_check_and_switch`,
then test `if not self.current_database:`.  When `current_database` is
`None` (unusable manager) this is an ordinary None test and the method
raises `RuntimeError`.  But on a usable manager `current_database` is a
real pymongo `Database`, whose `__bool__` raises `NotImplementedError`
("Database objects do not implement truth value testing or bool()"), so
the access raises on every call and never reaches the
`return self.current_database` line. -/
def mongo_get_database (m : Manager) (now : ℚ) (up : Bool) :
    Manager × Except DBError Pool :=
  let m1 := checkAndSwitch m now up
  match m1.current with
  | none => (m1, Except.error DBError.backendUnavailable)
  | some _ => (m1, Except.error DBError.notImplementedError)

/-- `RedisFailover.get_client`: identical logic to `get_session`
(check-and-switch, raise `RuntimeError` when `current_client` is `None`,
else return it). -/
def redis_get_client : Manager → ℚ → Bool → Manager × Except DBError Pool :=
  get_session

/-- `MongoFailover.get_client`: identical logic to `get_engine`
(check-and-switch, then `return self.current_client` with no raise). -/
def mongo_get_client : Manager → ℚ → Bool → Manager × Except DBError (Option Pool) :=
  get_engine

/-- `is_using_primary`: `self.current_engine == self.primary_engine`.
When both are `None` this is Python `None == None`, i.e. `True`. -/
def is_using_primary (m : Manager) : Bool :=
  decide (m.current = m.primaryEngine)

/-- The dictionary returned by `get_status` (same five keys in all three
managers; `primary_healthy` is `None` when no primary engine exists). -/
structure Status where
  using_primary : Bool
  primary_available : Bool
  fallback_available : Bool
  primary_healthy : Option Bool
  current_db : String
deriving DecidableEq, Repr

/-- `get_status`: a pure read of the manager's fields — it takes no lock
and calls no switch logic.  `primaryLabel` / `fallbackLabel` are the
backend names (`"Supabase"` / `"Local PostgreSQL"` for postgres,
`"MongoDB Atlas"` / `"Local MongoDB"` for mongo, `"Upstash"` /
`"Local Redis"` for redis). -/
def get_status (primaryLabel fallbackLabel : String) (m : Manager) : Status :=
  { using_primary := is_using_primary m
    primary_available := m.primaryEngine.isSome
    fallback_available := m.fallbackEngine.isSome
    primary_healthy :=
      if m.primaryEngine.isSome then some m.primaryHealthy else none
    current_db := if is_using_primary m then primaryLabel else fallbackLabel }

/-- `database_health` (backend/app/api/v1/endpoints/health/__init__.py):
reads the three managers' statuses and computes `overall_status`:
`"healthy"` if for every manager `primary_available or fallback_available`,
else `"degraded"`.  It only reads; no manager state is produced or
modified (the function returns only the string). -/
def database_health (pgM mgM rdM : Manager) : String :=
  let pg := get_status "Supabase" "Local PostgreSQL" pgM
  let mg := get_status "MongoDB Atlas" "Local MongoDB" mgM
  let rd := get_status "Upstash" "Local Redis" rdM
  if (pg.primary_available || pg.fallback_available) &&
      (mg.primary_available || mg.fallback_available) &&
      (rd.primary_available || rd.fallback_available) then
    "healthy"
  else
    "degraded"

/-- The `try: yield db finally: db.close()` body of `get_db`: run the
request body on the session; `db.close()` runs on both the normal and the
exceptional exit path.  The second component records whether the session
was closed when the scope exited. -/
def tryFinallyClose {ε α : Type} (body : Pool → Except ε α) (p : Pool) :
    Except ε α × Bool :=
  match body p with
  | Except.ok a => (Except.ok a, true)
  | Except.error e => (Except.error e, true)

/-- `get_db` (FastAPI dependency): acquire a session via `get_session`
(this may raise `BackendUnavailable`, in which case no session exists to
close), then run the request body under `try/finally` with `db.close()`
in the `finally` block. -/
def get_db {ε α : Type} (m : Manager) (now : ℚ) (primaryUp : Bool)
    (body : Pool → Except ε α) :
    Manager × Except DBError (Except ε α × Bool) :=
  match get_session m now primaryUp with
  | (m1, Except.error e) => (m1, Except.error e)
  | (m1, Except.ok p) => (m1, Except.ok (tryFinallyClose body p))

/-- States a manager can actually be in: freshly constructed, or the
result of a switch-check on a reachable state.  Every accessor
(`get_session`, `get_engine`, ...) leaves the manager in the
`checkAndSwitch` state, so this relation covers all states produced by the
class's public interface. -/
inductive Reachable : Manager → Prop
  | init (p f : Bool) : Reachable (initManager p f)
  | step (m : Manager) (now : ℚ) (up : Bool) :
      Reachable m → Reachable (checkAndSwitch m now up)

/-! ### Helper lemmas -/

theorem primaryEngine_isSome (m : Manager) :
    m.primaryEngine.isSome = m.primaryConf := by
  unfold Manager.primaryEngine
  cases h : m.primaryConf <;> simp [h]

theorem fallbackEngine_isSome (m : Manager) :
    m.fallbackEngine.isSome = m.fallbackConf := by
  unfold Manager.fallbackEngine
  cases h : m.fallbackConf <;> simp [h]

/-- The role/flag invariant: whenever a primary pool is configured and the
`primary_healthy` flag is set, the active pool is the primary. -/
def RoleInvariant (m : Manager) : Prop :=
  m.primaryConf = true → m.primaryHealthy = true → m.current = some Pool.primary

theorem roleInvariant_checkPrimaryBranch (m : Manager) (up : Bool)
    (h : RoleInvariant m) : RoleInvariant (checkPrimaryBranch m up) := by
  unfold RoleInvariant checkPrimaryBranch
  split_ifs <;> intro hp hh <;>
    first
      | exact h hp hh
      | simp at hh

theorem roleInvariant_checkAndSwitchBody (m : Manager) (up : Bool)
    (h : RoleInvariant m) : RoleInvariant (checkAndSwitchBody m up) := by
  unfold checkAndSwitchBody
  split_ifs with h1 h2
  · intro hp hh
    simp only at hp
    simp [Manager.primaryEngine, hp]
  · exact roleInvariant_checkPrimaryBranch m up h
  · exact roleInvariant_checkPrimaryBranch m up h

theorem roleInvariant_checkAndSwitch (m : Manager) (now : ℚ) (up : Bool)
    (h : RoleInvariant m) : RoleInvariant (checkAndSwitch m now up) := by
  unfold checkAndSwitch
  split_ifs with h1
  · exact h
  · exact roleInvariant_checkAndSwitchBody _ up (fun hp hh => h hp hh)

theorem roleInvariant_init (p f : Bool) : RoleInvariant (initManager p f) := by
  intro hp hh
  cases p with
  | false => simp [initManager] at hp
  | true => rfl

theorem reachable_roleInvariant (m : Manager) (h : Reachable m) :
    RoleInvariant m := by
  induction h with
  | init p f => exact roleInvariant_init p f
  | step m now up _ ih => exact roleInvariant_checkAndSwitch m now up ih

/-- A switch-check on a manager with no configured primary never touches
the `current` pointer when it points at a fallback pool. -/
theorem no_primary_keeps_current (m : Manager) (now : ℚ) (up : Bool)
    (hp : m.primaryConf = false) (hcur : m.current = some Pool.fallback) :
    (checkAndSwitch m now up).current = some Pool.fallback := by
  unfold checkAndSwitch
  split_ifs with h1
  · exact hcur
  · simp [checkAndSwitchBody, checkPrimaryBranch, healthCheck,
      Manager.primaryEngine, Manager.fallbackEngine, hp, hcur]

/-- A switch-check on a manager with neither pool configured and no
current pool only stamps the timestamp. -/
theorem unusable_checkAndSwitch (m : Manager) (now : ℚ) (up : Bool)
    (hp : m.primaryConf = false) (hf : m.fallbackConf = false)
    (hcur : m.current = none) :
    (checkAndSwitch m now up).current = none := by
  unfold checkAndSwitch
  split_ifs with h1
  · exact hcur
  · simp [checkAndSwitchBody, checkPrimaryBranch, healthCheck,
      Manager.primaryEngine, Manager.fallbackEngine, hp, hf, hcur]

/-! ### Claims -/

/-- C1: for every manager (postgres, mongodb, redis share this state
machine) and every reachable state, whenever the primary pool is
configured and the primary-healthy flag is true, the active connection is
the primary; equivalently, the active role is fallback only if the
primary pool is absent or was recorded unhealthy.  Construction and every
`_check_and_switch` (hence every accessor) preserve this. -/
theorem C1_active_role_invariant (m : Manager) (h : Reachable m) :
    (m.primaryConf = true → m.primaryHealthy = true →
      m.current = some Pool.primary) ∧
    (m.current = some Pool.fallback →
      m.primaryConf = false ∨ m.primaryHealthy = false) := by
  have hinv := reachable_roleInvariant m h
  refine ⟨hinv, ?_⟩
  intro hcur
  by_cases hp : m.primaryConf = true
  · by_cases hh : m.primaryHealthy = true
    · rw [hinv hp hh] at hcur
      exact absurd hcur (by simp)
    · exact Or.inr (by simpa using hh)
  · exact Or.inl (by simpa using hp)

/-- C1 witness: the freshly constructed manager with both pools configured
satisfies the invariant's conclusion. -/
theorem C1_active_role_invariant_witness :
    (initManager true true).current = some Pool.primary :=
  (C1_active_role_invariant (initManager true true)
    (Reachable.init true true)).1 rfl rfl

/-- C2: a manager on primary whose throttle window has elapsed, whose
primary probe fails and whose fallback pool is configured switches to the
fallback pool and clears the primary-healthy flag. -/
theorem C2_failover_to_fallback (m : Manager) (now : ℚ)
    (hp : m.primaryConf = true) (hf : m.fallbackConf = true)
    (hcur : m.current = some Pool.primary)
    (ht : m.healthCheckInterval ≤ now - m.lastHealthCheck) :
    (checkAndSwitch m now false).current = some Pool.fallback ∧
    (checkAndSwitch m now false).primaryHealthy = false := by
  unfold checkAndSwitch
  rw [if_neg (not_lt.mpr ht)]
  simp [checkAndSwitchBody, checkPrimaryBranch, healthCheck,
    Manager.primaryEngine, Manager.fallbackEngine, hp, hf, hcur]

/-- C2 witness: a concrete manager on primary with both pools configured,
checked after 30 seconds with a failing probe, lands on fallback. -/
theorem C2_failover_to_fallback_witness :
    (checkAndSwitch (initManager true true) 30 false).current =
      some Pool.fallback ∧
    (checkAndSwitch (initManager true true) 30 false).primaryHealthy =
      false :=
  C2_failover_to_fallback (initManager true true) 30 rfl rfl rfl
    (by norm_num [initManager])

/-- C3: a manager on fallback with a configured primary whose throttle
window has elapsed and whose primary probe succeeds switches back to the
primary pool and sets the primary-healthy flag. -/
theorem C3_auto_recovery (m : Manager) (now : ℚ)
    (hp : m.primaryConf = true) (hf : m.fallbackConf = true)
    (hcur : m.current = some Pool.fallback)
    (ht : m.healthCheckInterval ≤ now - m.lastHealthCheck) :
    (checkAndSwitch m now true).current = some Pool.primary ∧
    (checkAndSwitch m now true).primaryHealthy = true := by
  unfold checkAndSwitch
  rw [if_neg (not_lt.mpr ht)]
  simp [checkAndSwitchBody, checkPrimaryBranch, healthCheck,
    Manager.primaryEngine, Manager.fallbackEngine, hp, hf, hcur]

/-- C3 witness: a concrete manager on fallback with both pools configured,
checked after 30 seconds with a healthy probe, returns to primary. -/
theorem C3_auto_recovery_witness :
    (checkAndSwitch (Manager.mk true true (some Pool.fallback) 0 30 false)
      30 true).current = some Pool.primary ∧
    (checkAndSwitch (Manager.mk true true (some Pool.fallback) 0 30 false)
      30 true).primaryHealthy = true :=
  C3_auto_recovery (Manager.mk true true (some Pool.fallback) 0 30 false)
    30 rfl rfl rfl (by norm_num)

/-- General throttle frame lemma: an access made strictly less than
`health_check_interval` after the last recorded health check performs no
probe and leaves the manager unchanged (including the timestamp):
`_check_and_switch` is the identity, `get_engine`/`get_session` (and the
redis/mongo twins) return the already active pool where their code
reaches a return, the probe bit is irrelevant (`up` is universally
quantified), and construction fixes the interval at 30 seconds. -/
theorem throttle_frame (m : Manager) (now : ℚ) (up : Bool)
    (h : now - m.lastHealthCheck < m.healthCheckInterval) :
    checkAndSwitch m now up = m ∧
    get_engine m now up = (m, Except.ok m.current) ∧
    (get_session m now up).1 = m ∧
    (∀ p, m.current = some p → (get_session m now up).2 = Except.ok p) ∧
    (mongo_get_database m now up).1 = m ∧
    (redis_get_client m now up).1 = m ∧
    mongo_get_client m now up = (m, Except.ok m.current) ∧
    (∀ pc fc : Bool, (initManager pc fc).healthCheckInterval = 30) := by
  have hcs : checkAndSwitch m now up = m := by
    unfold checkAndSwitch
    rw [if_pos h]
  have hses1 : (get_session m now up).1 = m := by
    simp only [get_session, hcs]
    cases m.current <;> rfl
  have hmdb1 : (mongo_get_database m now up).1 = m := by
    simp only [mongo_get_database, hcs]
    cases m.current <;> rfl
  have heng : get_engine m now up = (m, Except.ok m.current) := by
    simp [get_engine, hcs]
  have hses2 : ∀ p, m.current = some p →
      (get_session m now up).2 = Except.ok p := by
    intro p hcur
    simp [get_session, hcs, hcur]
  exact ⟨hcs, heng, hses1, hses2, hmdb1, hses1, heng, fun pc fc => rfl⟩

/-- C4 (code bug): an access inside the throttle window indeed performs
no probe and leaves the state untouched, and `get_session` returns the
already active pool — but the claim also covers
`MongoFailover.get_database` returning the active pool, and that access
never returns: `if not self.current_database:` triggers pymongo
`Database.__bool__`, which raises `NotImplementedError`, on every call
with a usable manager.  Evaluated at the failing input (manager with
only the fallback configured, accessed 10 seconds after construction):
the state is unchanged and no probe ran, yet the mongo accessor raises
instead of returning the fallback pool. -/
theorem C4_mongo_throttled_access_bug :
    checkAndSwitch (initManager false true) 10 true = initManager false true ∧
    (get_session (initManager false true) 10 true).2 =
      Except.ok Pool.fallback ∧
    (mongo_get_database (initManager false true) 10 true).1 =
      initManager false true ∧
    (mongo_get_database (initManager false true) 10 true).2 =
      Except.error DBError.notImplementedError := by
  have h := throttle_frame (initManager false true) 10 true
    (by norm_num [initManager])
  have hcur : (initManager false true).current = some Pool.fallback := rfl
  refine ⟨h.1, h.2.2.2.1 Pool.fallback hcur, h.2.2.2.2.1, ?_⟩
  simp [mongo_get_database, h.1, hcur]

/-- C5 counterexample: the claim says every pool-or-session accessor of an
unusable manager raises `BackendUnavailable` and never returns.  But
`PostgreSQLFailover.get_engine` (and likewise `MongoFailover.get_client`)
contains no raise statement: on the unusable manager it returns normally,
with outcome `Except.ok none` — handing back Python `None` — rather than
raising. -/
theorem C5_counterexample :
    (get_engine (initManager false false) 100 true).2 = Except.ok none := by
  have h := unusable_checkAndSwitch (initManager false false) 100 true
    rfl rfl rfl
  simp [get_engine, h]

/-- C5 (amended): for an unusable manager, the session-acquiring accessors
(`get_session`, `MongoFailover.get_database`, `RedisFailover.get_client`)
raise `BackendUnavailable`; the raw engine/client accessors
(`PostgreSQLFailover.get_engine`, `MongoFailover.get_client`) instead
return normally with no pool (`None`). -/
theorem C5_unusable_access (m : Manager) (now : ℚ) (up : Bool)
    (hp : m.primaryConf = false) (hf : m.fallbackConf = false)
    (hcur : m.current = none) :
    (get_session m now up).2 = Except.error DBError.backendUnavailable ∧
    (mongo_get_database m now up).2 =
      Except.error DBError.backendUnavailable ∧
    (redis_get_client m now up).2 =
      Except.error DBError.backendUnavailable ∧
    (get_engine m now up).2 = Except.ok none ∧
    (mongo_get_client m now up).2 = Except.ok none := by
  have hc := unusable_checkAndSwitch m now up hp hf hcur
  have h1 : (get_session m now up).2 =
      Except.error DBError.backendUnavailable := by
    simp [get_session, hc]
  have h1m : (mongo_get_database m now up).2 =
      Except.error DBError.backendUnavailable := by
    simp [mongo_get_database, hc]
  have h2 : (get_engine m now up).2 = Except.ok none := by
    simp [get_engine, hc]
  exact ⟨h1, h1m, h1, h2, h2⟩

/-- C5 witness: the concrete unusable manager's accessors behave as the
amended claim states. -/
theorem C5_unusable_access_witness :
    (get_session (initManager false false) 100 true).2 =
      Except.error DBError.backendUnavailable ∧
    (mongo_get_database (initManager false false) 100 true).2 =
      Except.error DBError.backendUnavailable ∧
    (redis_get_client (initManager false false) 100 true).2 =
      Except.error DBError.backendUnavailable ∧
    (get_engine (initManager false false) 100 true).2 = Except.ok none ∧
    (mongo_get_client (initManager false false) 100 true).2 =
      Except.ok none :=
  C5_unusable_access (initManager false false) 100 true rfl rfl rfl

/-- C6 (code bug): construction does prefer primary, then fallback, else
no pool, and with only the fallback configured the status reports
`primary_available = false` and `using_primary = false`; the postgres and
redis session accessors then succeed against the fallback pool for every
access.  But the claim's "all accesses go to Fallback" fails for the
mongo manager: `MongoFailover.get_database` (hence `get_collection`)
raises `NotImplementedError` from pymongo `Database.__bool__` instead of
succeeding against the fallback — evaluated here at the failing input
(only `MONGODB_URL` configured, access at t = 100). -/
theorem C6_mongo_fallback_access_bug :
    (∀ pc fc : Bool, (initManager pc fc).current =
      (if pc then some Pool.primary
       else if fc then some Pool.fallback else none)) ∧
    (get_status "MongoDB Atlas" "Local MongoDB"
      (initManager false true)).primary_available = false ∧
    (get_status "MongoDB Atlas" "Local MongoDB"
      (initManager false true)).using_primary = false ∧
    (∀ (now : ℚ) (up : Bool),
      (get_session (initManager false true) now up).2 =
        Except.ok Pool.fallback) ∧
    (mongo_get_database (initManager false true) 100 true).2 =
      Except.error DBError.notImplementedError := by
  refine ⟨?_, rfl, rfl, ?_, ?_⟩
  · intro pc fc
    cases pc <;> cases fc <;> rfl
  · intro now up
    have h := no_primary_keeps_current (initManager false true) now up rfl rfl
    simp [get_session, h]
  · have h := no_primary_keeps_current (initManager false true) 100 true rfl rfl
    simp [mongo_get_database, h]

/-- C7: the health endpoint's `overall_status` is `"healthy"` exactly when
every one of the three managers has at least one pool configured
(available), and `"degraded"` otherwise; in particular one unusable
manager next to two healthy-on-primary managers yields `"degraded"`.
`database_health` only reads the three statuses and returns a string — it
produces no new manager state. -/
theorem C7_aggregator_overall_status :
    (∀ pgM mgM rdM : Manager,
      database_health pgM mgM rdM = "healthy" ↔
        ((pgM.primaryConf = true ∨ pgM.fallbackConf = true) ∧
         (mgM.primaryConf = true ∨ mgM.fallbackConf = true) ∧
         (rdM.primaryConf = true ∨ rdM.fallbackConf = true))) ∧
    database_health (initManager false false) (initManager true true)
      (initManager true true) = "degraded" := by
  have hne : ("degraded" : String) ≠ "healthy" := by decide
  constructor
  · intro pgM mgM rdM
    have key : ∀ b : Bool,
        ((if b then "healthy" else "degraded") : String) = "healthy" ↔
          b = true := by
      intro b
      cases b <;> simp [hne]
    simp only [database_health, get_status, primaryEngine_isSome,
      fallbackEngine_isSome]
    rw [key]
    simp only [Bool.and_eq_true, Bool.or_eq_true, and_assoc]
  · rfl

/-- C8: a session handed out by the `get_db` dependency is closed on every
exit path of the request body: whenever the outcome carries a session
result (the acquisition did not raise), the closed flag of the
`try/finally` scope is `true`, for normally completing and for raising
bodies alike. -/
theorem C8_session_closed_on_every_exit (ε α : Type) (m : Manager)
    (now : ℚ) (up : Bool) (body : Pool → Except ε α) :
    (get_db m now up body).2.toOption.map Prod.snd =
      (get_session m now up).2.toOption.map (fun _ => true) := by
  unfold get_db
  rcases h : get_session m now up with ⟨m1, r⟩
  cases r with
  | error e => simp [h, Except.toOption]
  | ok p =>
    simp only [h]
    cases hb : body p <;> simp [tryFinallyClose, hb, Except.toOption]

/-- C9: a manager with neither pool configured still reports
`using_primary = true` (Python `None == None`) and `current_db` equal to
the primary backend's label, with both availability flags false and
`primary_healthy = None` — indistinguishable on those two fields from a
manager healthy on primary. -/
theorem C9_unusable_status (L1 L2 : String) (m : Manager)
    (hp : m.primaryConf = false) (hf : m.fallbackConf = false)
    (hcur : m.current = none) :
    is_using_primary m = true ∧
    get_status L1 L2 m =
      { using_primary := true, primary_available := false,
        fallback_available := false, primary_healthy := none,
        current_db := L1 } := by
  have h1 : is_using_primary m = true := by
    simp [is_using_primary, Manager.primaryEngine, hp, hcur]
  refine ⟨h1, ?_⟩
  simp [get_status, h1, Manager.primaryEngine, Manager.fallbackEngine, hp, hf]

/-- C9 witness: the concrete unusable manager's status snapshot, with the
postgres labels. -/
theorem C9_unusable_status_witness :
    is_using_primary (initManager false false) = true ∧
    get_status "Supabase" "Local PostgreSQL" (initManager false false) =
      { using_primary := true, primary_available := false,
        fallback_available := false, primary_healthy := none,
        current_db := "Supabase" } :=
  C9_unusable_status "Supabase" "Local PostgreSQL" (initManager false false)
    rfl rfl rfl

/-- C10: a manager on primary with no configured fallback whose throttled
probe fails stays on primary and keeps its primary-healthy flag (only the
timestamp moves); if the flag was true, the status still reports
`primary_healthy = true` right after the failed probe. -/
theorem C10_probe_fail_no_fallback (L1 L2 : String) (m : Manager) (now : ℚ)
    (hp : m.primaryConf = true) (hf : m.fallbackConf = false)
    (hcur : m.current = some Pool.primary)
    (ht : m.healthCheckInterval ≤ now - m.lastHealthCheck) :
    checkAndSwitch m now false = { m with lastHealthCheck := now } ∧
    (m.primaryHealthy = true →
      (get_status L1 L2 (checkAndSwitch m now false)).primary_healthy =
        some true) := by
  have hcs : checkAndSwitch m now false = { m with lastHealthCheck := now } := by
    unfold checkAndSwitch
    rw [if_neg (not_lt.mpr ht)]
    simp [checkAndSwitchBody, checkPrimaryBranch, healthCheck,
      Manager.primaryEngine, Manager.fallbackEngine, hp, hf, hcur]
  refine ⟨hcs, ?_⟩
  intro hh
  rw [hcs]
  simp [get_status, Manager.primaryEngine, hp, hh]

/-- C10 witness: a concrete manager with only the primary configured,
probed unsuccessfully after 30 seconds, keeps its state and reports
`primary_healthy = true`. -/
theorem C10_probe_fail_no_fallback_witness :
    checkAndSwitch (initManager true false) 30 false =
      { initManager true false with lastHealthCheck := 30 } ∧
    (get_status "Supabase" "Local PostgreSQL"
      (checkAndSwitch (initManager true false) 30 false)).primary_healthy =
      some true := by
  have h := C10_probe_fail_no_fallback "Supabase" "Local PostgreSQL"
    (initManager true false) 30 rfl rfl rfl (by norm_num [initManager])
  exact ⟨h.1, h.2 rfl⟩

end Insta
